import Mathlib

/-
Verification of the resilient-execution layer of the foodsave-ai repository
(ErrorHandler with fallback recovery and rate-limited operator alerting) and
of the agent-plugin base interface.

The repository ships only the unit tests of the ErrorHandler
(src/backend/tests/unit/test_error_handler.py); the implementation module
backend/agents/adapters/error_handler.py is not part of the source tree we
were given.  The executor is therefore modelled from the specification
(sections 3, 4.1, 7), with the unit tests used as concrete anchors.
Wall-clock time is modelled as a natural number of seconds passed in
explicitly (the Python code reads datetime.now at the call site).
-/

namespace FoodsaveAI

/-- Modelled from the spec: `ErrorSeverity`, the ordered enumeration
LOW < MEDIUM < HIGH < CRITICAL used by backend/agents/error_types.py
(module absent from src/; its import appears in the unit tests). -/
inductive ErrorSeverity where
  | LOW
  | MEDIUM
  | HIGH
  | CRITICAL
deriving DecidableEq, Repr

/-- Numeric rank of a severity; the order LOW < MEDIUM < HIGH < CRITICAL is
the comparison used by alert admission. -/
def ErrorSeverity.toNat : ErrorSeverity → Nat
  | ErrorSeverity.LOW => 0
  | ErrorSeverity.MEDIUM => 1
  | ErrorSeverity.HIGH => 2
  | ErrorSeverity.CRITICAL => 3

/-- Modelled from the spec: `AlertKey`, the composite identity
(owner_id, error_kind) that is the throttling unit.  The Python code
encodes it as the string "owner:kind" used to index `last_alerts`. -/
structure AlertKey where
  owner_id : String
  error_kind : String
deriving DecidableEq, Repr

/-- Modelled from the spec: `AlertRecord`, the payload emitted on alert:
owner id, error kind, severity, human-readable message and caller-supplied
diagnostic context. -/
structure AlertRecord where
  owner_id : String
  error_kind : String
  severity : ErrorSeverity
  message : String
  context : List (String × String)
deriving DecidableEq, Repr

/-- Modelled from the spec: the Resilient Executor (class ErrorHandler in
backend/agents/adapters/error_handler.py, absent from src/).  Holds the
owner id, the configured alert threshold (default HIGH), the configured
cooldown in seconds (default 3600) and the `LastAlertTimestamp` map,
modelled as an association list from AlertKey to the time of the most
recently sent alert. -/
structure ErrorHandler where
  owner_id : String
  alert_threshold : ErrorSeverity
  alert_cooldown : Nat
  last_alerts : List (AlertKey × Nat)
deriving DecidableEq, Repr

/-- Modelled from the spec: the ErrorHandler constructor takes an owner id
and starts with the default threshold HIGH, the default cooldown 3600
seconds and an empty alert-timestamp map. -/
def ErrorHandler.new (owner_id : String) : ErrorHandler :=
  ErrorHandler.mk owner_id ErrorSeverity.HIGH 3600 []

/-- Lookup in the `LastAlertTimestamp` association list (first match wins,
mirroring a Python dict in which assignment prepends a fresh binding in our
model). -/
def lookupAlert : List (AlertKey × Nat) → AlertKey → Option Nat
  | [], _ => none
  | p :: rest, k => if k = p.1 then some p.2 else lookupAlert rest k

/-- Modelled from the spec: the pure eligibility predicate
`should_alert(error_kind, severity)` of the ErrorHandler.  Not eligible if
the severity is below the configured threshold; otherwise eligible iff no
prior alert timestamp exists for AlertKey(owner_id, error_kind) or the
elapsed time since the last recorded alert exceeds the cooldown.  It reads
but never writes the executor state. -/
def ErrorHandler.should_alert (h : ErrorHandler) (now : Nat)
    (error_kind : String) (severity : ErrorSeverity) : Bool :=
  if ErrorSeverity.toNat severity < ErrorSeverity.toNat h.alert_threshold then
    false
  else
    match lookupAlert h.last_alerts (AlertKey.mk h.owner_id error_kind) with
    | none => true
    | some last => decide (h.alert_cooldown < now - last)

/-- Modelled from the spec: the alert send step `send_alert`.  Records the
current timestamp into the `LastAlertTimestamp` map under
AlertKey(owner_id, error_kind) — the only mutation that enforces
throttling — and emits the AlertRecord to the notification sink (a
warning-level log line in the reference behavior).  The emitted record is
returned alongside the updated executor. -/
def ErrorHandler.send_alert (h : ErrorHandler) (now : Nat)
    (error_kind : String) (context : List (String × String))
    (severity : ErrorSeverity) : ErrorHandler × AlertRecord :=
  (ErrorHandler.mk h.owner_id h.alert_threshold h.alert_cooldown
      ((AlertKey.mk h.owner_id error_kind, now) :: h.last_alerts),
   AlertRecord.mk h.owner_id error_kind severity
      (String.append "Error in agent " h.owner_id) context)

/-- Modelled from the spec: the failure path of the executor.  Evaluates
alert eligibility for the failure once; when eligible it performs the send
step, otherwise state is untouched.  Returns the updated executor and the
list of notifications emitted to the sink (empty or a singleton). -/
def ErrorHandler.handleFailure (h : ErrorHandler) (now : Nat)
    (error_kind : String) (severity : ErrorSeverity) :
    ErrorHandler × List AlertRecord :=
  if h.should_alert now error_kind severity then
    let p := h.send_alert now error_kind [] severity
    (p.1, [p.2])
  else
    (h, [])

/-- Outcome of one `execute_with_fallback` call: the value returned to the
caller (`none` is the absent-value sentinel, which coincides with a
successful Python return of None), the executor state afterwards, the
notifications emitted to the sink, and the number of alert-eligibility
evaluations performed during the call. -/
structure ExecResult (α : Type) where
  result : Option α
  handler : ErrorHandler
  alerts : List AlertRecord
  eligibility_checks : Nat
deriving Repr

/-- Modelled from the spec: `execute_with_fallback(primary, fallback)`.
The primary and fallback callables are modelled by the outcome of awaiting
them: `Except.ok v` is a successful return of the Python value v (itself an
`Option α`, since a callable may legitimately return None), and
`Except.error e` is a raised exception whose error kind is the string e.
On success the result is returned unchanged with no side effect.  On
failure the severity is classified by the pluggable `classify` function and
alert eligibility is evaluated exactly once, independent of whether a
fallback exists; then the fallback, if supplied, is invoked, its success
value returned, and its failure swallowed — the caller always receives a
value, never a raised failure. -/
def ErrorHandler.execute_with_fallback {α : Type} (h : ErrorHandler)
    (classify : String → ErrorSeverity) (now : Nat)
    (primary : Except String (Option α))
    (fallback : Option (Except String (Option α))) : ExecResult α :=
  match primary with
  | Except.ok v => ExecResult.mk v h [] 0
  | Except.error e =>
    let p := h.handleFailure now e (classify e)
    match fallback with
    | none => ExecResult.mk none p.1 p.2 1
    | some (Except.ok v) => ExecResult.mk v p.1 p.2 1
    | some (Except.error _) => ExecResult.mk none p.1 p.2 1

/-- A sequence of failures for one error kind, each given as (time,
classified severity), run through the executor failure path in order.
Returns the final executor state and the total number of notifications
emitted to the sink. -/
def runFailures (h : ErrorHandler) (error_kind : String) :
    List (Nat × ErrorSeverity) → ErrorHandler × Nat
  | [] => (h, 0)
  | e :: rest =>
    let p := h.handleFailure e.1 error_kind e.2
    let q := runFailures p.1 error_kind rest
    (q.1, p.2.length + q.2)

/-- An interaction with the executor: either an actual failure (which may
send an alert) or a pure eligibility query (a caller asking whether an
alert would fire, which must record nothing). -/
inductive ExecEvent where
  | failure (t : Nat) (error_kind : String) (severity : ErrorSeverity)
  | query (t : Nat) (error_kind : String) (severity : ErrorSeverity)
deriving DecidableEq, Repr

/-- Run a sequence of interactions; queries evaluate the eligibility
predicate and discard the answer, failures go through the failure path.
Returns the final executor state and the total notification count. -/
def runEvents (h : ErrorHandler) : List ExecEvent → ErrorHandler × Nat
  | [] => (h, 0)
  | ExecEvent.failure t k s :: rest =>
    let p := h.handleFailure t k s
    let q := runEvents p.1 rest
    (q.1, p.2.length + q.2)
  | ExecEvent.query t k s :: rest =>
    let _answer := h.should_alert t k s
    runEvents h rest

/-- Remove the pure eligibility queries from an interaction sequence. -/
def dropQueries : List ExecEvent → List ExecEvent
  | [] => []
  | ExecEvent.failure t k s :: rest => ExecEvent.failure t k s :: dropQueries rest
  | ExecEvent.query _ _ _ :: rest => dropQueries rest

/-- The agent-plugin capability set of
src/backend/agents/plugin_interface.py: an abstract base class whose four
abstract methods a concrete plugin must all provide.  `Agent` models the
Any-typed agent instance, `Dict` the Python dict payloads, `Meta` the
metadata dictionary.  The field `init` models the Python method named
initialize (that name is reserved in Lean); the other three keep the
source's names. -/
structure AgentPlugin (Agent Dict Meta : Type) where
  init : Agent → Unit
  before_process : Dict → Dict
  after_process : Dict → Dict
  get_metadata : Meta

/-! Supporting lemmas about the eligibility predicate and the failure path. -/

/-- Looking a key up just after an entry for a different key was prepended
sees the old map. -/
lemma lookupAlert_cons_ne (m : List (AlertKey × Nat)) (k k' : AlertKey)
    (t : Nat) (hne : k ≠ k') :
    lookupAlert ((k', t) :: m) k = lookupAlert m k := by
  simp [lookupAlert, hne]

/-- Looking up the key of the entry just prepended sees its timestamp. -/
lemma lookupAlert_cons_self (m : List (AlertKey × Nat)) (k : AlertKey)
    (t : Nat) : lookupAlert ((k, t) :: m) k = some t := by
  simp [lookupAlert]

/-- A severity below the configured threshold is never eligible. -/
lemma should_alert_below_threshold (h : ErrorHandler) (now : Nat)
    (k : String) (s : ErrorSeverity)
    (hs : ErrorSeverity.toNat s < ErrorSeverity.toNat h.alert_threshold) :
    h.should_alert now k s = false := by
  simp [ErrorHandler.should_alert, hs]

/-- While the last recorded alert for the key is no older than the
cooldown, the predicate is false whatever the severity. -/
lemma should_alert_within_cooldown (h : ErrorHandler) (k : String)
    (s : ErrorSeverity) (t t0 a : Nat)
    (hl : lookupAlert h.last_alerts (AlertKey.mk h.owner_id k) = some t0)
    (ha : a ≤ t0) (ht : t ≤ a + h.alert_cooldown) :
    h.should_alert t k s = false := by
  unfold ErrorHandler.should_alert
  split
  · rfl
  · rw [hl]
    simp only [decide_eq_false_iff_not, not_lt]
    omega

/-- An eligible severity with a last alert strictly older than the cooldown
is eligible again. -/
lemma should_alert_after_cooldown (h : ErrorHandler) (k : String)
    (s : ErrorSeverity) (now T : Nat)
    (hl : lookupAlert h.last_alerts (AlertKey.mk h.owner_id k) = some T)
    (hs : ErrorSeverity.toNat h.alert_threshold ≤ ErrorSeverity.toNat s)
    (hcd : T + h.alert_cooldown < now) :
    h.should_alert now k s = true := by
  unfold ErrorHandler.should_alert
  split
  · omega
  · rw [hl]
    simp only [decide_eq_true_eq]
    omega

/-- When the predicate denies, the failure path is a no-op: same state, no
notification. -/
lemma handleFailure_of_not_alert (h : ErrorHandler) (now : Nat) (k : String)
    (s : ErrorSeverity) (hb : h.should_alert now k s = false) :
    h.handleFailure now k s = (h, []) := by
  simp [ErrorHandler.handleFailure, hb]

/-- When the predicate grants, the failure path records the timestamp under
the key, keeps the owner, threshold and cooldown, and emits exactly one
notification. -/
lemma handleFailure_of_alert (h : ErrorHandler) (now : Nat) (k : String)
    (s : ErrorSeverity) (hb : h.should_alert now k s = true) :
    h.handleFailure now k s =
      (ErrorHandler.mk h.owner_id h.alert_threshold h.alert_cooldown
        ((AlertKey.mk h.owner_id k, now) :: h.last_alerts),
       [AlertRecord.mk h.owner_id k s
          (String.append "Error in agent " h.owner_id) []]) := by
  simp [ErrorHandler.handleFailure, hb, ErrorHandler.send_alert]

/-- Once some alert timestamp inside the window [a, a + cooldown] is on
record for the key, no failure dated inside that window emits anything, and
the state never changes. -/
lemma runFailures_blocked (h : ErrorHandler) (k : String)
    (evs : List (Nat × ErrorSeverity)) (t0 a : Nat)
    (hl : lookupAlert h.last_alerts (AlertKey.mk h.owner_id k) = some t0)
    (ha : a ≤ t0)
    (hw : ∀ e ∈ evs, e.1 ≤ a + h.alert_cooldown) :
    runFailures h k evs = (h, 0) := by
  induction evs with
  | nil => rfl
  | cons e rest ih =>
    have hb : h.should_alert e.1 k e.2 = false :=
      should_alert_within_cooldown h k e.2 e.1 t0 a hl ha
        (hw e (List.mem_cons_self e rest))
    have hrest : ∀ x ∈ rest, x.1 ≤ a + h.alert_cooldown :=
      fun x hx => hw x (List.mem_cons_of_mem e hx)
    simp [runFailures, handleFailure_of_not_alert h e.1 k e.2 hb, ih hrest]

/-- Any batch of failures for one key whose times all lie in one window of
length the cooldown emits at most one notification, whatever the starting
state and the severities. -/
lemma runFailures_window_le_one (h : ErrorHandler) (k : String)
    (evs : List (Nat × ErrorSeverity)) (a : Nat)
    (hw : ∀ e ∈ evs, a ≤ e.1 ∧ e.1 ≤ a + h.alert_cooldown) :
    (runFailures h k evs).2 ≤ 1 := by
  induction evs with
  | nil => simp [runFailures]
  | cons e rest ih =>
    by_cases hb : h.should_alert e.1 k e.2 = true
    · have hfire := handleFailure_of_alert h e.1 k e.2 hb
      have hblocked :
          runFailures
            (ErrorHandler.mk h.owner_id h.alert_threshold h.alert_cooldown
              ((AlertKey.mk h.owner_id k, e.1) :: h.last_alerts)) k rest
            = (ErrorHandler.mk h.owner_id h.alert_threshold h.alert_cooldown
              ((AlertKey.mk h.owner_id k, e.1) :: h.last_alerts), 0) := by
        refine runFailures_blocked _ k rest e.1 a ?_ ?_ ?_
        · exact lookupAlert_cons_self h.last_alerts (AlertKey.mk h.owner_id k) e.1
        · exact (hw e (List.mem_cons_self e rest)).1
        · exact fun x hx => (hw x (List.mem_cons_of_mem e hx)).2
      simp [runFailures, hfire, hblocked]
    · have hb' : h.should_alert e.1 k e.2 = false := by
        simpa using hb
      have ih' := ih (fun x hx => hw x (List.mem_cons_of_mem e hx))
      simp [runFailures, handleFailure_of_not_alert h e.1 k e.2 hb', ih']

/-- Handling a failure of one error kind leaves the recorded timestamp of
every other error kind of the same owner untouched. -/
lemma handleFailure_preserves_other_kind (h : ErrorHandler) (now : Nat)
    (k k2 : String) (s : ErrorSeverity) (hne : k ≠ k2) :
    lookupAlert ((h.handleFailure now k2 s).1).last_alerts
        (AlertKey.mk h.owner_id k)
      = lookupAlert h.last_alerts (AlertKey.mk h.owner_id k) := by
  unfold ErrorHandler.handleFailure
  split
  · simp only [ErrorHandler.send_alert]
    refine lookupAlert_cons_ne _ _ _ _ ?_
    intro hcontra
    exact hne (congrArg AlertKey.error_kind hcontra)
  · rfl

/-- Handling a failure of one error kind can touch only the timestamp of
its own AlertKey: every other key, whether it differs in owner or in error
kind, keeps its recorded timestamp. -/
lemma handleFailure_preserves_other_key (h : ErrorHandler) (now : Nat)
    (k2 : String) (s : ErrorSeverity) (key : AlertKey)
    (hne : key ≠ AlertKey.mk h.owner_id k2) :
    lookupAlert ((h.handleFailure now k2 s).1).last_alerts key
      = lookupAlert h.last_alerts key := by
  unfold ErrorHandler.handleFailure
  split
  · simp only [ErrorHandler.send_alert]
    exact lookupAlert_cons_ne _ _ _ _ hne
  · rfl

/-- Interleaving any number of pure eligibility queries into an interaction
sequence changes neither the final executor state nor the number of
notifications sent: the run is the run of its failures alone. -/
lemma runEvents_dropQueries (evs : List ExecEvent) :
    ∀ h : ErrorHandler, runEvents h evs = runEvents h (dropQueries evs) := by
  induction evs with
  | nil => intro h; rfl
  | cons e rest ih =>
    intro h
    cases e with
    | failure t k s => simp [runEvents, dropQueries, ih]
    | query t k s => simp [runEvents, dropQueries, ih h]

/-! Concrete anchors mirroring the unit tests of
src/src/backend/tests/unit/test_error_handler.py.  The tests construct
ErrorHandler("test_agent"); the classifier assigning the baseline severity
MEDIUM to every failure plays the role of the reference classification
policy. -/

/-- The handler the unit tests construct. -/
def testHandler : ErrorHandler := ErrorHandler.new "test_agent"

/-- The reference classification policy: unclassified failures get the
baseline severity MEDIUM. -/
def baselineClassify : String → ErrorSeverity := fun _ => ErrorSeverity.MEDIUM

/-- Mirror of test_execute_with_fallback_success: a succeeding primary's
value comes back unchanged. -/
theorem test_execute_with_fallback_success :
    (testHandler.execute_with_fallback baselineClassify 0
      (Except.ok (some "success")) none).result = some "success" := rfl

/-- Mirror of test_execute_with_fallback_error: a failing primary with no
fallback yields the sentinel None. -/
theorem test_execute_with_fallback_error :
    (testHandler.execute_with_fallback baselineClassify 0
      (Except.error "test error")
      (none : Option (Except String (Option String)))).result = none := rfl

/-- Mirror of test_execute_with_fallback_fallback_success: a failing
primary with a succeeding fallback yields the fallback's value. -/
theorem test_execute_with_fallback_fallback_success :
    (testHandler.execute_with_fallback baselineClassify 0
      (Except.error "test error")
      (some (Except.ok (some "fallback success")))).result
      = some "fallback success" := rfl

/-- Mirror of test_should_alert_below_threshold: LOW is below the default
threshold HIGH. -/
theorem test_should_alert_below_threshold :
    testHandler.should_alert 0 "test" ErrorSeverity.LOW = false := by decide

/-- Mirror of test_should_alert_above_threshold: HIGH reaches the default
threshold on a fresh key. -/
theorem test_should_alert_above_threshold :
    testHandler.should_alert 0 "test" ErrorSeverity.HIGH = true := by decide

/-- Mirror of test_should_alert_throttling: with the last alert for the key
recorded 3601 seconds ago the predicate grants again, while a last alert
recorded this instant denies. -/
theorem test_should_alert_throttling :
    (ErrorHandler.mk "test_agent" ErrorSeverity.HIGH 3600
        [(AlertKey.mk "test_agent" "test", 0)]).should_alert 3601 "test"
        ErrorSeverity.HIGH = true
    ∧ (ErrorHandler.mk "test_agent" ErrorSeverity.HIGH 3600
        [(AlertKey.mk "test_agent" "test", 3601)]).should_alert 3601 "test"
        ErrorSeverity.HIGH = false := by
  constructor <;> decide

/-- Mirror of test_send_alert: an eligible failure emits one notification
to the sink. -/
theorem test_send_alert :
    (testHandler.handleFailure 0 "test" ErrorSeverity.HIGH).2.length = 1 := by
  decide

/-! The claims. -/

/-- C1: execute_with_fallback never propagates a failure to its caller:
whatever the primary and the optional fallback do, the call resolves to the
primary's successful value, to the fallback's successful value, or to the
absent-value sentinel none — in particular when the primary fails, when the
fallback fails, and when both fail. -/
theorem execute_with_fallback_never_raises {α : Type} (h : ErrorHandler)
    (classify : String → ErrorSeverity) (now : Nat)
    (primary : Except String (Option α))
    (fallback : Option (Except String (Option α))) :
    (∃ v, primary = Except.ok v
        ∧ (h.execute_with_fallback classify now primary fallback).result = v)
    ∨ (∃ e v, primary = Except.error e ∧ fallback = some (Except.ok v)
        ∧ (h.execute_with_fallback classify now primary fallback).result = v)
    ∨ (h.execute_with_fallback classify now primary fallback).result = none := by
  cases primary with
  | ok v => exact Or.inl ⟨v, rfl, rfl⟩
  | error e =>
    cases fallback with
    | none => exact Or.inr (Or.inr rfl)
    | some fb =>
      cases fb with
      | ok v => exact Or.inr (Or.inl ⟨e, v, rfl, rfl, rfl⟩)
      | error e2 => exact Or.inr (Or.inr rfl)

/-- C2: for one AlertKey at most one alert is emitted per cooldown window
however many failures hit that key inside the window; a failure of a
different error kind of the same owner, or the same kind under a different
owner id, leaves the key's recorded timestamp untouched (independent
throttling); and a further eligible failure once the cooldown has elapsed
emits a new notification. -/
theorem alert_throttling_per_window (h : ErrorHandler) (k k2 o2 : String)
    (evs : List (Nat × ErrorSeverity)) (a : Nat) (s : ErrorSeverity)
    (now T : Nat)
    (hw : ∀ e ∈ evs, a ≤ e.1 ∧ e.1 ≤ a + h.alert_cooldown)
    (hne : k ≠ k2) (ho2 : o2 ≠ h.owner_id)
    (hs : ErrorSeverity.toNat h.alert_threshold ≤ ErrorSeverity.toNat s)
    (hT : lookupAlert h.last_alerts (AlertKey.mk h.owner_id k) = some T)
    (hcd : T + h.alert_cooldown < now) :
    (runFailures h k evs).2 ≤ 1
    ∧ lookupAlert ((h.handleFailure now k2 s).1).last_alerts
        (AlertKey.mk h.owner_id k)
      = lookupAlert h.last_alerts (AlertKey.mk h.owner_id k)
    ∧ lookupAlert ((h.handleFailure now k s).1).last_alerts
        (AlertKey.mk o2 k)
      = lookupAlert h.last_alerts (AlertKey.mk o2 k)
    ∧ ((h.handleFailure now k s).2).length = 1 := by
  refine ⟨runFailures_window_le_one h k evs a hw, ?_, ?_, ?_⟩
  · exact handleFailure_preserves_other_key h now k2 s (AlertKey.mk h.owner_id k)
      (fun hcontra => hne (congrArg AlertKey.error_kind hcontra))
  · exact handleFailure_preserves_other_key h now k s (AlertKey.mk o2 k)
      (fun hcontra => ho2 (congrArg AlertKey.owner_id hcontra))
  · have hb := should_alert_after_cooldown h k s now T hT hs hcd
    simp [handleFailure_of_alert h now k s hb]

/-- The handler of the spec's concrete scenario: owner agent_x, default
threshold and cooldown, one alert for kind timeout recorded at t = 0. -/
def scenarioHandler : ErrorHandler :=
  ErrorHandler.mk "agent_x" ErrorSeverity.HIGH 3600
    [(AlertKey.mk "agent_x" "timeout", 0)]

/-- Witness for C2 at the spec's concrete scenario: two eligible failures
inside one window starting at t = 4000 emit at most one alert, other keys
are untouched, and the failure at t = 4000 (cooldown elapsed since t = 0)
emits exactly one new notification. -/
theorem alert_throttling_per_window_witness :
    (∀ e ∈ [((4000 : Nat), ErrorSeverity.HIGH),
            ((4010 : Nat), ErrorSeverity.CRITICAL)],
        4000 ≤ e.1 ∧ e.1 ≤ 4000 + scenarioHandler.alert_cooldown)
    ∧ "timeout" ≠ "db_error"
    ∧ "agent_y" ≠ scenarioHandler.owner_id
    ∧ ErrorSeverity.toNat scenarioHandler.alert_threshold
        ≤ ErrorSeverity.toNat ErrorSeverity.HIGH
    ∧ lookupAlert scenarioHandler.last_alerts
        (AlertKey.mk scenarioHandler.owner_id "timeout") = some 0
    ∧ 0 + scenarioHandler.alert_cooldown < 4000
    ∧ ((runFailures scenarioHandler "timeout"
          [((4000 : Nat), ErrorSeverity.HIGH),
           ((4010 : Nat), ErrorSeverity.CRITICAL)]).2 ≤ 1
       ∧ lookupAlert ((scenarioHandler.handleFailure 4000 "db_error"
              ErrorSeverity.HIGH).1).last_alerts
            (AlertKey.mk scenarioHandler.owner_id "timeout")
          = lookupAlert scenarioHandler.last_alerts
            (AlertKey.mk scenarioHandler.owner_id "timeout")
       ∧ lookupAlert ((scenarioHandler.handleFailure 4000 "timeout"
              ErrorSeverity.HIGH).1).last_alerts
            (AlertKey.mk "agent_y" "timeout")
          = lookupAlert scenarioHandler.last_alerts
            (AlertKey.mk "agent_y" "timeout")
       ∧ ((scenarioHandler.handleFailure 4000 "timeout"
              ErrorSeverity.HIGH).2).length = 1) :=
  ⟨by decide, by decide, by decide, by decide, by decide, by decide,
   alert_throttling_per_window scenarioHandler "timeout" "db_error" "agent_y"
     [((4000 : Nat), ErrorSeverity.HIGH), ((4010 : Nat), ErrorSeverity.CRITICAL)]
     4000 ErrorSeverity.HIGH 4000 0 (by decide) (by decide) (by decide)
     (by decide) (by decide) (by decide)⟩

/-- C3: with one alert for the key on record at time T and an eligible
severity, the predicate at time T + d grants iff d strictly exceeds the
configured cooldown, whose default is 3600 seconds. -/
theorem should_alert_cooldown_boundary (h : ErrorHandler) (k : String)
    (s : ErrorSeverity) (T d : Nat)
    (hT : lookupAlert h.last_alerts (AlertKey.mk h.owner_id k) = some T)
    (hs : ErrorSeverity.toNat h.alert_threshold ≤ ErrorSeverity.toNat s) :
    (h.should_alert (T + d) k s = true ↔ h.alert_cooldown < d)
    ∧ (ErrorHandler.new h.owner_id).alert_cooldown = 3600 := by
  refine ⟨?_, rfl⟩
  unfold ErrorHandler.should_alert
  split
  · exact absurd hs (by omega)
  · rw [hT]
    simp only [decide_eq_true_eq]
    omega

/-- Witness for C3: the scenario handler, whose last timeout alert is on
record at T = 0, grants again at T + 4000 since 4000 exceeds the default
cooldown. -/
theorem should_alert_cooldown_boundary_witness :
    lookupAlert scenarioHandler.last_alerts
      (AlertKey.mk scenarioHandler.owner_id "timeout") = some 0
    ∧ ErrorSeverity.toNat scenarioHandler.alert_threshold
        ≤ ErrorSeverity.toNat ErrorSeverity.HIGH
    ∧ ((scenarioHandler.should_alert (0 + 4000) "timeout" ErrorSeverity.HIGH
          = true ↔ scenarioHandler.alert_cooldown < 4000)
       ∧ (ErrorHandler.new scenarioHandler.owner_id).alert_cooldown = 3600) :=
  ⟨by decide, by decide,
   should_alert_cooldown_boundary scenarioHandler "timeout" ErrorSeverity.HIGH
     0 4000 (by decide) (by decide)⟩

/-- C4: on a fresh key (no recorded timestamp) the predicate grants iff the
severity reaches the configured threshold, whose default is HIGH — false
for every lower severity whatever the time, true on the first eligible
call. -/
theorem should_alert_fresh_key (h : ErrorHandler) (now : Nat) (k : String)
    (s : ErrorSeverity)
    (hfresh : lookupAlert h.last_alerts (AlertKey.mk h.owner_id k) = none) :
    (h.should_alert now k s = true
      ↔ ErrorSeverity.toNat h.alert_threshold ≤ ErrorSeverity.toNat s)
    ∧ (ErrorHandler.new h.owner_id).alert_threshold = ErrorSeverity.HIGH := by
  refine ⟨?_, rfl⟩
  unfold ErrorHandler.should_alert
  split
  · simp only [Bool.false_eq_true, false_iff]
    omega
  · rw [hfresh]
    simp only [true_iff]
    omega

/-- Witness for C4: a fresh handler grants HIGH on its first call and the
iff holds there. -/
theorem should_alert_fresh_key_witness :
    lookupAlert (ErrorHandler.new "test_agent").last_alerts
      (AlertKey.mk (ErrorHandler.new "test_agent").owner_id "test") = none
    ∧ (((ErrorHandler.new "test_agent").should_alert 7 "test"
          ErrorSeverity.HIGH = true
        ↔ ErrorSeverity.toNat (ErrorHandler.new "test_agent").alert_threshold
            ≤ ErrorSeverity.toNat ErrorSeverity.HIGH)
       ∧ (ErrorHandler.new (ErrorHandler.new "test_agent").owner_id).alert_threshold
          = ErrorSeverity.HIGH) :=
  ⟨rfl,
   should_alert_fresh_key (ErrorHandler.new "test_agent") 7 "test"
     ErrorSeverity.HIGH rfl⟩

/-- C5: a failing primary with no fallback yields the sentinel none, and
the call performs exactly one alert-eligibility evaluation. -/
theorem execute_no_fallback_failure {α : Type} (h : ErrorHandler)
    (classify : String → ErrorSeverity) (now : Nat) (e : String) :
    (h.execute_with_fallback classify now (Except.error e)
        (none : Option (Except String (Option α)))).result = none
    ∧ (h.execute_with_fallback classify now (Except.error e)
        (none : Option (Except String (Option α)))).eligibility_checks = 1 :=
  ⟨rfl, rfl⟩

/-- C6: a failing primary with a succeeding fallback yields the fallback's
value, and the eligibility evaluation, the executor state and the emitted
notifications are exactly those of the same failure with no fallback: the
alert decision is independent of whether a fallback exists. -/
theorem execute_fallback_success {α : Type} (h : ErrorHandler)
    (classify : String → ErrorSeverity) (now : Nat) (e : String)
    (v : Option α) :
    (h.execute_with_fallback classify now (Except.error e)
        (some (Except.ok v))).result = v
    ∧ (h.execute_with_fallback classify now (Except.error e)
        (some (Except.ok v))).eligibility_checks
      = (h.execute_with_fallback classify now (Except.error e)
          (none : Option (Except String (Option α)))).eligibility_checks
    ∧ (h.execute_with_fallback classify now (Except.error e)
        (some (Except.ok v))).handler
      = (h.execute_with_fallback classify now (Except.error e)
          (none : Option (Except String (Option α)))).handler
    ∧ (h.execute_with_fallback classify now (Except.error e)
        (some (Except.ok v))).alerts
      = (h.execute_with_fallback classify now (Except.error e)
          (none : Option (Except String (Option α)))).alerts :=
  ⟨rfl, rfl, rfl, rfl⟩

/-- C7: a succeeding primary's value is returned unchanged and the call has
no side effect: the executor state — in particular the LastAlertTimestamp
map — is untouched, nothing is emitted, and no eligibility evaluation
happens. -/
theorem execute_success_frame {α : Type} (h : ErrorHandler)
    (classify : String → ErrorSeverity) (now : Nat) (v : Option α)
    (fallback : Option (Except String (Option α))) :
    (h.execute_with_fallback classify now (Except.ok v) fallback).result = v
    ∧ (h.execute_with_fallback classify now (Except.ok v) fallback).handler = h
    ∧ (h.execute_with_fallback classify now
        (Except.ok v) fallback).handler.last_alerts = h.last_alerts
    ∧ (h.execute_with_fallback classify now (Except.ok v) fallback).alerts = []
    ∧ (h.execute_with_fallback classify now
        (Except.ok v) fallback).eligibility_checks = 0 :=
  ⟨rfl, rfl, rfl, rfl, rfl⟩

/-- C8: the eligibility predicate is queryable without side effects:
interleaving any number of should_alert queries into an interaction
sequence changes neither the final executor state nor the notification
count, while the send step is the one operation that records a timestamp
into the LastAlertTimestamp map. -/
theorem should_alert_no_side_effect (h : ErrorHandler) (evs : List ExecEvent)
    (now : Nat) (k : String) (ctx : List (String × String))
    (s : ErrorSeverity) :
    runEvents h evs = runEvents h (dropQueries evs)
    ∧ ((h.send_alert now k ctx s).1).last_alerts
      = (AlertKey.mk h.owner_id k, now) :: h.last_alerts :=
  ⟨runEvents_dropQueries evs h, rfl⟩

/-- C9: the agent-plugin capability set consists of exactly the four
operations init (Python name initialize), before_process, after_process and
get_metadata: every plugin is precisely its four operations, and
constructing one from four supplied operations installs each of them. -/
theorem agent_plugin_four_operations {Agent Dict Meta : Type}
    (p : AgentPlugin Agent Dict Meta) (f : Agent → Unit) (g1 g2 : Dict → Dict)
    (m : Meta) :
    p = AgentPlugin.mk p.init p.before_process p.after_process p.get_metadata
    ∧ (AgentPlugin.mk f g1 g2 m).init = f
    ∧ (AgentPlugin.mk f g1 g2 m).before_process = g1
    ∧ (AgentPlugin.mk f g1 g2 m).after_process = g2
    ∧ (AgentPlugin.mk f g1 g2 m).get_metadata = m :=
  ⟨rfl, rfl, rfl, rfl, rfl⟩

/-- C10: the absent-value sentinel is none, the model of the Python null
value None: a primary that legitimately succeeds with the value None and a
contained failure produce the very same caller-visible result. -/
theorem failure_sentinel_is_none {α : Type} (h : ErrorHandler)
    (classify : String → ErrorSeverity) (now : Nat) (e : String) :
    (h.execute_with_fallback classify now (Except.ok (none : Option α))
        none).result
      = (h.execute_with_fallback classify now (Except.error e) none).result
    ∧ (h.execute_with_fallback classify now (Except.error e)
        (none : Option (Except String (Option α)))).result = none :=
  ⟨rfl, rfl⟩

end FoodsaveAI
